import Mathlib

/-!
Verification development for the alx_poll polling application.

This file gives a shallow embedding of the vote-intake route handlers
(`POST` and `PUT` of `src/app/api/polls/[id]/vote/route.ts`), the storage
layer uniqueness constraints of `database-schema.sql` on the `votes` table,
and the analytics derivation functions of `src/lib/analytics.ts`
(`analyzeOptions`, `getVotingTrends`, `groupVotesByTimeFrame`,
`calculateOptionTrend`) together with `calculatePercentage` of
`src/lib/utils`.  Timestamps are modelled as integer epoch milliseconds and
the JavaScript `Date` calendar accessors are modelled in UTC; JavaScript
floating point arithmetic on percentages is modelled with exact rationals.
-/

namespace AlxPoll

/-- A row of the `polls` table, restricted to the columns the vote route
reads (`is_active`, `allow_multiple_votes`, `require_authentication`,
`expires_at`). `expires_at` is an epoch-millisecond timestamp. -/
structure PollRow where
  id : String
  is_active : Bool
  allow_multiple_votes : Bool
  require_authentication : Bool
  expires_at : Option Int
deriving Repr, DecidableEq

/-- A row of the `poll_options` table, restricted to the columns the vote
route reads. -/
structure OptionRow where
  id : String
  poll_id : String
deriving Repr, DecidableEq

/-- A row of the `votes` table.  As in the SQL schema, each of the three
voter-identity columns is nullable. -/
structure VoteRow where
  poll_id : String
  option_id : String
  voter_id : Option String
  voter_email : Option String
  voter_phone : Option String
  ip_address : String
  user_agent : String
deriving Repr, DecidableEq

/-- The persistent store visible to the vote route: the three tables it
touches. -/
structure DB where
  polls : List PollRow
  options : List OptionRow
  votes : List VoteRow
deriving Repr, DecidableEq

/-- The body of a single-choice vote request after zod parsing with
`voteSchema` (`src/lib/validations.ts`): `poll_id`, `option_id` and the two
optional anonymous identity fields.  `voteSchema` has no `voter_id` field. -/
structure VoteRequest where
  poll_id : String
  option_id : String
  voter_email : Option String
  voter_phone : Option String
deriving Repr, DecidableEq

/-- The `.refine` clause of `voteSchema`: either `voter_email` or
`voter_phone` must be present (string-format checks of zod are elided, they
do not affect the control flow modelled here). -/
def voteSchemaOk (r : VoteRequest) : Bool :=
  r.voter_email.isSome || r.voter_phone.isSome

/-- The body of a multi-choice vote request after zod parsing with
`multipleVoteSchema`: `poll_id` and a list of option ids. -/
structure MultiVoteRequest where
  poll_id : String
  option_ids : List String
deriving Repr, DecidableEq

/-- The size bounds of `multipleVoteSchema`: between 1 and 10 option ids. -/
def multipleVoteSchemaOk (r : MultiVoteRequest) : Bool :=
  1 ≤ r.option_ids.length && r.option_ids.length ≤ 10

/-- Outcome of the single-choice route: either the created vote row, or an
HTTP error response with its status code and the literal message string the
handler produces. -/
inductive VoteOutcome where
  | ok (vote : VoteRow)
  | err (status : Nat) (msg : String)
deriving Repr, DecidableEq

/-- Outcome of the multi-choice route: either the created vote rows, or an
HTTP error response. -/
inductive MultiVoteOutcome where
  | ok (votes : List VoteRow)
  | err (status : Nat) (msg : String)
deriving Repr, DecidableEq

/-- The expiry test of the route: `poll.expires_at && new
Date(poll.expires_at) < new Date()` — expired exactly when `expires_at` is
set and strictly before the current time. -/
def pollExpired (p : PollRow) (now : Int) : Bool :=
  match p.expires_at with
  | some t => decide (t < now)
  | none => false

/-- The duplicate-vote pre-check of the `POST` handler: it queries on
`voter_id` if set, otherwise on `voter_email` if set, otherwise on
`voter_phone` if set — only the first non-null identity field is checked. -/
def existingVoteFound (votes : List VoteRow) (pid : String)
    (vid vemail vphone : Option String) : Bool :=
  if vid.isSome then
    votes.any (fun w => w.poll_id == pid && w.voter_id == vid)
  else if vemail.isSome then
    votes.any (fun w => w.poll_id == pid && w.voter_email == vemail)
  else if vphone.isSome then
    votes.any (fun w => w.poll_id == pid && w.voter_phone == vphone)
  else false

/-- The uniqueness constraints `unique_user_vote (poll_id, voter_id)`,
`unique_email_vote (poll_id, voter_email)` and `unique_phone_vote
(poll_id, voter_phone)` of `database-schema.sql`.  SQL `UNIQUE` treats
NULLs as distinct, so a new row conflicts only on its non-null identity
columns. -/
def violatesUnique (votes : List VoteRow) (v : VoteRow) : Bool :=
  votes.any (fun w =>
    w.poll_id == v.poll_id &&
    ((v.voter_id.isSome && w.voter_id == v.voter_id) ||
     (v.voter_email.isSome && w.voter_email == v.voter_email) ||
     (v.voter_phone.isSome && w.voter_phone == v.voter_phone)))

/-- The `POST` handler of `src/app/api/polls/[id]/vote/route.ts`, as a
state transformer on `DB`.  `session` is the verified session user id
supplied by `supabase.auth.getUser` (`none` when there is no session);
`now` is the current time.  The check order mirrors the source: poll
lookup filtered on `is_active`, expiry, authentication, duplicate
pre-check, option membership, insert; an insert rejected by the storage
constraints produces the generic 500 response of the source. -/
def POST (db : DB) (req : VoteRequest) (session : Option String)
    (now : Int) (ip ua : String) : VoteOutcome × DB :=
  if !voteSchemaOk req then (.err 400 "Validation error", db)
  else
    match db.polls.find? (fun p => p.id == req.poll_id && p.is_active) with
    | none => (.err 404 "Poll not found or inactive", db)
    | some poll =>
      if pollExpired poll now then (.err 400 "Poll has expired", db)
      else if poll.require_authentication && session.isNone then
        (.err 401 "Authentication required for this poll", db)
      else
        let voter_id : Option String :=
          if poll.require_authentication then session else none
        if existingVoteFound db.votes req.poll_id voter_id
            req.voter_email req.voter_phone then
          (.err 400 "You have already voted on this poll", db)
        else if !(db.options.any (fun o =>
            o.id == req.option_id && o.poll_id == req.poll_id)) then
          (.err 400 "Invalid option selected", db)
        else
          let v : VoteRow :=
            ⟨req.poll_id, req.option_id, voter_id,
             req.voter_email, req.voter_phone, ip, ua⟩
          if violatesUnique db.votes v then
            (.err 500 "Failed to submit vote", db)
          else
            (.ok v, { db with votes := db.votes ++ [v] })

/-- Transactional multi-row insert: each row is checked against the
uniqueness constraints (including the rows inserted earlier in the same
statement); any violation aborts the whole insert. -/
def insertAll (votes : List VoteRow) : List VoteRow → Option (List VoteRow)
  | [] => some votes
  | v :: rest =>
    if violatesUnique votes v then none else insertAll (votes ++ [v]) rest

/-- The `PUT` handler (multi-choice votes) of the same route file: session
check, poll lookup filtered on `is_active` and `allow_multiple_votes`,
expiry, duplicate check on `(poll_id, voter_id)` alone, option-set check
(the table rows matching the requested ids must be as many as the
requested ids), then the batch insert with no anonymous identity fields. -/
def PUT (db : DB) (req : MultiVoteRequest) (session : Option String)
    (now : Int) (ip ua : String) : MultiVoteOutcome × DB :=
  if !multipleVoteSchemaOk req then (.err 400 "Validation error", db)
  else
    match session with
    | none => (.err 401 "Authentication required for multiple votes", db)
    | some uid =>
      match db.polls.find? (fun p =>
          p.id == req.poll_id && p.is_active && p.allow_multiple_votes) with
      | none => (.err 404 "Poll not found or does not allow multiple votes", db)
      | some poll =>
        if pollExpired poll now then (.err 400 "Poll has expired", db)
        else if db.votes.any (fun w =>
            w.poll_id == req.poll_id && w.voter_id == some uid) then
          (.err 400 "You have already voted on this poll", db)
        else
          let matched := db.options.filter (fun o =>
            o.poll_id == req.poll_id && req.option_ids.contains o.id)
          if matched.length != req.option_ids.length then
            (.err 400 "One or more invalid options selected", db)
          else
            let rows := req.option_ids.map (fun oid =>
              (⟨req.poll_id, oid, some uid, none, none, ip, ua⟩ : VoteRow))
            match insertAll db.votes rows with
            | none => (.err 500 "Failed to submit votes", db)
            | some vts => (.ok rows, { db with votes := vts })

/-- One invocation of the `POST` handler: its request together with the
ambient session, time and audit metadata. -/
structure PostCall where
  req : VoteRequest
  session : Option String
  now : Int
  ip : String
  ua : String
deriving Repr

/-- Run a sequence of `POST` submissions against the store. -/
def runPOSTs (db : DB) (calls : List PostCall) : DB :=
  calls.foldl (fun d c => (POST d c.req c.session c.now c.ip c.ua).2) db

/-! ## Analytics model (`src/lib/analytics.ts`) -/

/-- The time granularity accepted by the trend functions:
hour / day / week / month. -/
inductive TimeFrame where
  | hour | day | week | month
deriving Repr, DecidableEq

/-- The `Vote` shape consumed by the analytics module, restricted to the
fields `analyzeOptions`, `getVotingTrends` and `calculateOptionTrend`
read: the selected option and the creation time (epoch milliseconds). -/
structure AVote where
  optionId : String
  createdAt : Int
deriving Repr, DecidableEq

/-- A poll option as the analytics module sees it. -/
structure AOption where
  id : String
  text : String
deriving Repr, DecidableEq

/-- A poll as the analytics module sees it: its option list. -/
structure APoll where
  options : List AOption
deriving Repr, DecidableEq

/-- Per-option momentum label produced by `calculateOptionTrend`. -/
inductive OptionTrend where
  | increasing | decreasing | stable
deriving Repr, DecidableEq

/-- One entry of the trend series produced by `getVotingTrends`. -/
structure VotingTrend where
  date : String
  votes : Nat
  cumulativeVotes : Nat
deriving Repr, DecidableEq

/-- One entry of the per-option breakdown produced by `analyzeOptions`.
The JavaScript floating-point `percentage` is modelled exactly in `ℚ`. -/
structure OptionAnalytics where
  optionId : String
  optionText : String
  voteCount : Nat
  percentage : ℚ
  trend : OptionTrend
deriving Repr, DecidableEq

/-- Milliseconds in an hour. -/
def msPerHour : Int := 3600000

/-- Milliseconds in a day. -/
def msPerDay : Int := 86400000

/-- Civil day number of an epoch-millisecond timestamp (floor division, so
correct for times before 1970 as well). -/
def daysFromEpoch (ms : Int) : Int := ms.fdiv msPerDay

/-- `Date.getHours()` in UTC: the hour within the civil day. -/
def hourOfDay (ms : Int) : Int := (ms.fmod msPerDay).fdiv msPerHour

/-- `Date.getDay()` in UTC: day of week, 0 = Sunday.  Day 0 of the epoch
(1970-01-01) was a Thursday. -/
def dayOfWeek (days : Int) : Int := (days + 4).fmod 7

/-- Civil calendar date `(year, month 1..12, day 1..31)` of a day number
counted from 1970-01-01, by the standard days-to-civil conversion of the
proleptic Gregorian calendar. -/
def civilFromDays (z0 : Int) : Int × Int × Int :=
  let z := z0 + 719468
  let era := z.fdiv 146097
  let doe := z - era * 146097
  let yoe := (doe - doe.fdiv 1460 + doe.fdiv 36524 - doe.fdiv 146096).fdiv 365
  let y := yoe + era * 400
  let doy := doe - (365 * yoe + yoe.fdiv 4 - yoe.fdiv 100)
  let mp := (5 * doy + 2).fdiv 153
  let d := doy - (153 * mp + 2).fdiv 5 + 1
  let m := mp + (if mp < 10 then 3 else -9)
  (y + (if m ≤ 2 then 1 else 0), m, d)

/-- The bucket key built by the `switch` of `groupVotesByTimeFrame`, using
the UTC calendar fields of the timestamp.  As in JavaScript,
`getMonth()` is 0-based while `getDate()` is 1-based, and the `week` key
subtracts the day-of-week from the date before reading year and
day-of-month from the shifted date. -/
def voteKey (tf : TimeFrame) (ms : Int) : String :=
  let days := daysFromEpoch ms
  let c := civilFromDays days
  match tf with
  | .hour =>
    toString c.1 ++ "-" ++ toString (c.2.1 - 1) ++ "-" ++ toString c.2.2
      ++ "-" ++ toString (hourOfDay ms)
  | .day =>
    toString c.1 ++ "-" ++ toString (c.2.1 - 1) ++ "-" ++ toString c.2.2
  | .week =>
    let ws := civilFromDays (days - dayOfWeek days)
    toString ws.1 ++ "-W" ++ toString ((ws.2.2 + 6).fdiv 7)
  | .month =>
    toString c.1 ++ "-" ++ toString (c.2.1 - 1)

/-- `acc[key].push(vote)` on a JavaScript object used as an ordered
dictionary: append to the entry with this key if present, otherwise append
a new entry at the end (string-keyed object properties keep insertion
order). -/
def pushEntry (acc : List (String × List AVote)) (k : String) (v : AVote) :
    List (String × List AVote) :=
  match acc with
  | [] => [(k, [v])]
  | (k0, vs) :: rest =>
    if k0 == k then (k0, vs ++ [v]) :: rest
    else (k0, vs) :: pushEntry rest k v

/-- `groupVotesByTimeFrame`: a `reduce` that files each vote under its
time-bucket key. -/
def groupVotesByTimeFrame (votes : List AVote) (tf : TimeFrame) :
    List (String × List AVote) :=
  votes.foldl (fun acc v => pushEntry acc (voteKey tf v.createdAt) v) []

/-- The `votes.sort((a, b) => aTime - bTime)` of `getVotingTrends` and
`calculateOptionTrend`: a stable ascending sort on `createdAt`. -/
def sortVotes (votes : List AVote) : List AVote :=
  votes.mergeSort (fun a b => a.createdAt ≤ b.createdAt)

/-- The `for (const [date, dayVotes] of Object.entries(groupedVotes))`
loop of `getVotingTrends`, carrying the running cumulative total. -/
def trendsFromGroups : List (String × List AVote) → Nat → List VotingTrend
  | [], _ => []
  | (k, vs) :: rest, cum =>
    ⟨k, vs.length, cum + vs.length⟩ :: trendsFromGroups rest (cum + vs.length)

/-- `getVotingTrends`: sort the votes by creation time, bucket them by the
time frame, then emit one entry per bucket with its count and the
cumulative count so far. -/
def getVotingTrends (votes : List AVote) (tf : TimeFrame) : List VotingTrend :=
  trendsFromGroups (groupVotesByTimeFrame (sortVotes votes) tf) 0

/-- `acc[vote.optionId] = (acc[vote.optionId] || 0) + 1` on the ordered
dictionary built by the `reduce` of `analyzeOptions`. -/
def bumpCount (acc : List (String × Nat)) (k : String) : List (String × Nat) :=
  match acc with
  | [] => [(k, 1)]
  | (k0, n) :: rest =>
    if k0 == k then (k0, n + 1) :: rest else (k0, n) :: bumpCount rest k

/-- The `optionVotes` dictionary of `analyzeOptions`: per-option tallies of
the vote list. -/
def optionVotesMap (votes : List AVote) : List (String × Nat) :=
  votes.foldl (fun acc v => bumpCount acc v.optionId) []

/-- `optionVotes[option.id] || 0`: dictionary lookup defaulting to 0. -/
def lookupCount (acc : List (String × Nat)) (k : String) : Nat :=
  match acc.find? (fun e => e.1 == k) with
  | some e => e.2
  | none => 0

/-- `calculateOptionTrend`: sort this option's votes chronologically,
split at the midpoint, and compare the sizes of the two halves against the
1.2 / 0.8 thresholds (JavaScript float literals modelled as the rationals
12/10 and 8/10). -/
def calculateOptionTrend (optionId : String) (votes : List AVote) :
    OptionTrend :=
  let optionVotes := sortVotes (votes.filter (fun v => v.optionId == optionId))
  if optionVotes.length < 2 then .stable
  else
    let midPoint := optionVotes.length / 2
    let firstHalf := (optionVotes.take midPoint).length
    let secondHalf := (optionVotes.drop midPoint).length
    if (secondHalf : ℚ) > (firstHalf : ℚ) * (12 / 10) then .increasing
    else if (secondHalf : ℚ) < (firstHalf : ℚ) * (8 / 10) then .decreasing
    else .stable

/-- `analyzeOptions`: for each option of the poll, its vote count from the
tally dictionary, its percentage `count / totalVotes * 100` (0 when there
are no votes), and its trend label. -/
def analyzeOptions (poll : APoll) (votes : List AVote) :
    List OptionAnalytics :=
  let totalVotes := votes.length
  let ov := optionVotesMap votes
  poll.options.map (fun o =>
    let voteCount := lookupCount ov o.id
    let percentage : ℚ :=
      if totalVotes > 0 then ((voteCount : ℚ) / (totalVotes : ℚ)) * 100 else 0
    ⟨o.id, o.text, voteCount, percentage, calculateOptionTrend o.id votes⟩)

/-- `calculatePercentage` of `src/lib/utils`: 0 on an empty total, else
`Math.round(votes / total * 100)` (`Math.round` rounds half toward
positive infinity). -/
def calculatePercentage (votes total : Nat) : Int :=
  if total == 0 then 0
  else (((votes : ℚ) / (total : ℚ)) * 100 + 1 / 2).floor

/-- Symmetric identity-conflict test between two vote rows: same poll and a
shared non-null `voter_id`, `voter_email` or `voter_phone` value. -/
def identityConflict (w1 w2 : VoteRow) : Bool :=
  w1.poll_id == w2.poll_id &&
  ((w1.voter_id.isSome && w1.voter_id == w2.voter_id) ||
   (w1.voter_email.isSome && w1.voter_email == w2.voter_email) ||
   (w1.voter_phone.isSome && w1.voter_phone == w2.voter_phone))

/-- The central invariant of the spec: no two vote rows of the same poll
share a voter identity (one vote per `voter_id`, per `voter_email` and per
`voter_phone` value). -/
def atMostOnePerIdentity (votesTable : List VoteRow) : Prop :=
  votesTable.Pairwise (fun w1 w2 => identityConflict w1 w2 = false)

/-! ## Concrete stores and requests used by the closed theorems below -/

/-- Store for the single-vote invariant scenarios: one active
single-choice poll with two options and one recorded anonymous vote that
carries both an email and a phone identity. -/
def dbF1 : DB :=
  ⟨[⟨"p1", true, false, false, none⟩], [⟨"oA", "p1"⟩, ⟨"oB", "p1"⟩],
   [⟨"p1", "oA", none, some "e1", some "ph", "ip", "ua"⟩]⟩

/-- A second submission that repeats only the phone identity of the
recorded vote, under a fresh email. -/
def reqF1cex : VoteRequest := ⟨"p1", "oB", some "e2", some "ph"⟩

/-- A second submission that repeats the email identity of the recorded
vote. -/
def reqF1 : VoteRequest := ⟨"p1", "oB", some "e1", none⟩

/-- Store for the insert-failure scenarios (same shape as `dbF1`). -/
def dbF2 : DB :=
  ⟨[⟨"p1", true, false, false, none⟩], [⟨"oA", "p1"⟩, ⟨"oB", "p1"⟩],
   [⟨"p1", "oA", none, some "e1", some "ph", "ip", "ua"⟩]⟩

/-- A submission conflicting with the stored vote only on the phone
column. -/
def reqF2 : VoteRequest := ⟨"p1", "oB", some "e2", some "ph"⟩

/-- The row the handler builds from `reqF2`. -/
def rowF2 : VoteRow := ⟨"p1", "oB", none, some "e2", some "ph", "ip", "ua"⟩

/-- Store for the multi-choice scenarios: an active poll with
`allow_multiple_votes = true`, two options, and one recorded vote by user
`u1` on option `oA`. -/
def dbF3 : DB :=
  ⟨[⟨"p1", true, true, false, none⟩], [⟨"oA", "p1"⟩, ⟨"oB", "p1"⟩],
   [⟨"p1", "oA", some "u1", none, none, "ip", "ua"⟩]⟩

/-- A multi-choice submission by `u1` for the distinct option `oB`. -/
def reqF3 : MultiVoteRequest := ⟨"p1", ["oB"]⟩

/-- Store for the check-order scenario: one active poll with a single
option `oA` and a recorded vote by email `e1`. -/
def dbF4 : DB :=
  ⟨[⟨"p1", true, false, false, none⟩], [⟨"oA", "p1"⟩],
   [⟨"p1", "oA", none, some "e1", none, "ip", "ua"⟩]⟩

/-- A submission by the already-voted email `e1` for an option id that
does not belong to the poll. -/
def reqF4 : VoteRequest := ⟨"p1", "zz", some "e1", none⟩

/-- Store for the expiry scenario: an active poll whose `expires_at` is
time 100. -/
def dbF5 : DB :=
  ⟨[⟨"p1", true, false, false, some 100⟩], [⟨"oA", "p1"⟩], []⟩

/-- A well-formed submission for the expiry scenario. -/
def reqF5 : VoteRequest := ⟨"p1", "oA", some "e1", none⟩

/-- Store for the authentication scenario: an active poll with
`require_authentication = true` and no votes. -/
def dbF6 : DB :=
  ⟨[⟨"p1", true, false, true, none⟩], [⟨"oA", "p1"⟩], []⟩

/-- A submission carrying an anonymous email, aimed at the
authentication-required poll. -/
def reqF6 : VoteRequest := ⟨"p1", "oA", some "e1", none⟩

/-- The row recorded when `reqF6` is submitted with a session for user
`u1`. -/
def voteF6 : VoteRow := ⟨"p1", "oA", some "u1", some "e1", none, "ip", "ua"⟩

/-- The store after that authenticated submission. -/
def dbF6b : DB := ⟨dbF6.polls, dbF6.options, [voteF6]⟩

/-- Store with no poll rows at all. -/
def dbF7a : DB := ⟨[], [⟨"oA", "p1"⟩], []⟩

/-- Store whose only poll exists but has `is_active = false`. -/
def dbF7b : DB := ⟨[⟨"p1", false, false, false, none⟩], [⟨"oA", "p1"⟩], []⟩

/-- A well-formed submission aimed at poll `p1`. -/
def reqF7 : VoteRequest := ⟨"p1", "oA", some "e1", none⟩

/-- Store for the identity-shape scenario: an active poll with
`require_authentication = true` and no votes. -/
def dbF8 : DB := ⟨[⟨"p1", true, false, true, none⟩], [⟨"oA", "p1"⟩], []⟩

/-- An authenticated submission that also carries a client email. -/
def reqF8 : VoteRequest := ⟨"p1", "oA", some "e1", none⟩

/-- The row recorded for `reqF8` under the session of user `u1`: both
`voter_id` and `voter_email` are non-null. -/
def voteF8 : VoteRow := ⟨"p1", "oA", some "u1", some "e1", none, "ip", "ua"⟩

/-- The store after that submission. -/
def dbF8b : DB := ⟨dbF8.polls, dbF8.options, [voteF8]⟩

/-- A two-option poll for the analytics scenarios. -/
def pollF9 : APoll := ⟨[⟨"oA", "A"⟩, ⟨"oB", "B"⟩]⟩

/-- Three votes over the two options of `pollF9`, on two distinct days. -/
def votesF9 : List AVote := [⟨"oA", 1000⟩, ⟨"oA", 86400000⟩, ⟨"oB", 2000⟩]

/-- A permutation of `votesF9`. -/
def votesF9perm : List AVote := [⟨"oB", 2000⟩, ⟨"oA", 86400000⟩, ⟨"oA", 1000⟩]

/-- A follow-up submission sequence against `dbF1`: one fresh anonymous
phone vote for option `oB`. -/
def callsF1 : List PostCall :=
  [⟨⟨"p1", "oB", none, some "ph2"⟩, none, 0, "ip", "ua"⟩]

/-- The shape of a bucket dictionary that the trend series depends on: the
keys in order together with the bucket sizes. -/
def bucketSizes (g : List (String × List AVote)) : List (String × Nat) :=
  g.map (fun e => (e.1, e.2.length))

/-! ## Theorems -/

/-- Case analysis of the `POST` handler: every run either rejects with
some error response and leaves the store unchanged, or passes every check
and appends exactly the row built from the request (with `voter_id` drawn
from the session only when the poll requires authentication), that row
conflicting with no stored row. -/
theorem POST_cases (db : DB) (req : VoteRequest) (session : Option String)
    (now : Int) (ip ua : String) :
    (∃ status msg, POST db req session now ip ua = (.err status msg, db)) ∨
    (∃ poll,
      db.polls.find? (fun p => p.id == req.poll_id && p.is_active)
        = some poll ∧
      voteSchemaOk req = true ∧
      pollExpired poll now = false ∧
      (poll.require_authentication && session.isNone) = false ∧
      violatesUnique db.votes
        ⟨req.poll_id, req.option_id,
         (if poll.require_authentication then session else none),
         req.voter_email, req.voter_phone, ip, ua⟩ = false ∧
      POST db req session now ip ua =
        (.ok ⟨req.poll_id, req.option_id,
          (if poll.require_authentication then session else none),
          req.voter_email, req.voter_phone, ip, ua⟩,
         ⟨db.polls, db.options, db.votes ++
          [⟨req.poll_id, req.option_id,
            (if poll.require_authentication then session else none),
            req.voter_email, req.voter_phone, ip, ua⟩]⟩)) := by
  unfold POST
  by_cases hval : voteSchemaOk req = true
  case neg =>
    rw [Bool.not_eq_true] at hval
    have hcond : (!voteSchemaOk req) = true := by simp [hval]
    rw [if_pos hcond]
    exact Or.inl ⟨400, "Validation error", rfl⟩
  case pos =>
  have hcond : ¬((!voteSchemaOk req) = true) := by simp [hval]
  rw [if_neg hcond]
  cases hfind : db.polls.find? (fun p => p.id == req.poll_id && p.is_active)
  case none => exact Or.inl ⟨404, "Poll not found or inactive", rfl⟩
  case some poll =>
  dsimp only
  by_cases hexp : pollExpired poll now = true
  case pos =>
    rw [if_pos hexp]
    exact Or.inl ⟨400, "Poll has expired", rfl⟩
  case neg =>
  rw [if_neg hexp]
  by_cases hses : (poll.require_authentication && session.isNone) = true
  case pos =>
    rw [if_pos hses]
    exact Or.inl ⟨401, "Authentication required for this poll", rfl⟩
  case neg =>
  rw [if_neg hses]
  by_cases hdup : existingVoteFound db.votes req.poll_id
      (if poll.require_authentication then session else none)
      req.voter_email req.voter_phone = true
  case pos =>
    rw [if_pos hdup]
    exact Or.inl ⟨400, "You have already voted on this poll", rfl⟩
  case neg =>
  rw [if_neg hdup]
  by_cases hopt : (!db.options.any fun o =>
      o.id == req.option_id && o.poll_id == req.poll_id) = true
  case pos =>
    rw [if_pos hopt]
    exact Or.inl ⟨400, "Invalid option selected", rfl⟩
  case neg =>
  rw [if_neg hopt]
  by_cases hviol : violatesUnique db.votes
      ⟨req.poll_id, req.option_id,
       (if poll.require_authentication then session else none),
       req.voter_email, req.voter_phone, ip, ua⟩ = true
  case pos =>
    rw [if_pos hviol]
    exact Or.inl ⟨500, "Failed to submit vote", rfl⟩
  case neg =>
  rw [if_neg hviol]
  rw [Bool.not_eq_true] at hviol hexp hses
  exact Or.inr ⟨poll, rfl, hval, hexp, hses, hviol, rfl⟩

/-- Claim C5: a submission to a poll whose `expires_at` is set and strictly
in the past is rejected with the expiry error and persists no vote, for
every identity and option, even though the poll is active (`is_active`
holds, as the lookup filter requires). -/
theorem expired_poll_rejected (db : DB) (req : VoteRequest)
    (session : Option String) (now : Int) (ip ua : String) (poll : PollRow)
    (t : Int) (hv : voteSchemaOk req = true)
    (hfind : db.polls.find? (fun p => p.id == req.poll_id && p.is_active)
      = some poll)
    (hexp : poll.expires_at = some t) (ht : t < now) :
    POST db req session now ip ua = (.err 400 "Poll has expired", db) ∧
    poll.is_active = true := by
  have hact := List.find?_some hfind
  rw [Bool.and_eq_true] at hact
  refine ⟨?_, hact.2⟩
  simp [POST, hv, hfind, pollExpired, hexp, ht]

/-- Concrete run of `expired_poll_rejected`: an active poll expiring at
time 100 rejects a vote submitted at time 200. -/
theorem expired_poll_rejected_witness :
    POST dbF5 reqF5 none 200 "ip" "ua" = (.err 400 "Poll has expired", dbF5) ∧
    (⟨"p1", true, false, false, some 100⟩ : PollRow).is_active = true :=
  expired_poll_rejected dbF5 reqF5 none 200 "ip" "ua"
    ⟨"p1", true, false, false, some 100⟩ 100
    (by decide) (by decide) (by decide) (by decide)

/-- Claim C6: on a poll with `require_authentication = true`, a submission
without a session is rejected with the authentication error and persists no
vote, whatever anonymous identity fields the request carries; and when a
session exists, the recorded `voter_id` is the session user, never a
client-supplied field. -/
theorem auth_required_enforced (db : DB) (req : VoteRequest) (now : Int)
    (ip ua : String) (poll : PollRow) (u : String) (v : VoteRow) (db2 : DB)
    (hv : voteSchemaOk req = true)
    (hfind : db.polls.find? (fun p => p.id == req.poll_id && p.is_active)
      = some poll)
    (hauth : poll.require_authentication = true)
    (hexp : pollExpired poll now = false) :
    POST db req none now ip ua
      = (.err 401 "Authentication required for this poll", db) ∧
    (POST db req (some u) now ip ua = (.ok v, db2) → v.voter_id = some u) := by
  constructor
  · simp [POST, hv, hfind, hexp, hauth]
  · intro h
    rcases POST_cases db req (some u) now ip ua with ⟨st, msg, he⟩ | ⟨p2, hf2, _, _, _, _, hok⟩
    · rw [he] at h
      exact absurd (congrArg Prod.fst h) (by simp)
    · rw [hok] at h
      have h1 := congrArg Prod.fst h
      dsimp only at h1
      cases VoteOutcome.ok.inj h1
      have : p2 = poll := by rw [hfind] at hf2; exact (Option.some.inj hf2).symm
      subst this
      simp [hauth]

/-- Concrete run of `auth_required_enforced`: the authentication-required
poll of `dbF6` rejects the sessionless submission and, under the session of
`u1`, records `voter_id = u1`. -/
theorem auth_required_enforced_witness :
    POST dbF6 reqF6 none 0 "ip" "ua"
      = (.err 401 "Authentication required for this poll", dbF6) ∧
    (POST dbF6 reqF6 (some "u1") 0 "ip" "ua" = (.ok voteF6, dbF6b) →
      voteF6.voter_id = some "u1") :=
  auth_required_enforced dbF6 reqF6 0 "ip" "ua"
    ⟨"p1", true, false, true, none⟩ "u1" voteF6 dbF6b
    (by decide) (by decide) (by decide) (by decide)

/-- Claim C4 counterexample: in `dbF4` the supplied option `zz` does not
belong to the poll while the submitting email identity has already voted;
the handler answers with the already-voted rejection, not the
invalid-option rejection, so the option-membership check does not precede
the duplicate check. -/
theorem duplicate_checked_before_option_cex :
    dbF4.options.any (fun o =>
      o.id == reqF4.option_id && o.poll_id == reqF4.poll_id) = false ∧
    existingVoteFound dbF4.votes reqF4.poll_id none
      reqF4.voter_email reqF4.voter_phone = true ∧
    POST dbF4 reqF4 none 0 "ip" "ua"
      = (.err 400 "You have already voted on this poll", dbF4) ∧
    (POST dbF4 reqF4 none 0 "ip" "ua").1
      ≠ .err 400 "Invalid option selected" := by decide

/-- Claim C4 (amended): the duplicate-vote check precedes the
option-membership check, so a submission whose option does not belong to
the poll and whose identity has already voted is rejected with the
already-voted error. -/
theorem duplicate_check_precedes_option_check (db : DB) (req : VoteRequest)
    (session : Option String) (now : Int) (ip ua : String) (poll : PollRow)
    (hv : voteSchemaOk req = true)
    (hfind : db.polls.find? (fun p => p.id == req.poll_id && p.is_active)
      = some poll)
    (hexp : pollExpired poll now = false)
    (hnoauth : poll.require_authentication = false)
    (hdup : existingVoteFound db.votes req.poll_id none
      req.voter_email req.voter_phone = true)
    (hbad : db.options.any (fun o =>
      o.id == req.option_id && o.poll_id == req.poll_id) = false) :
    POST db req session now ip ua
      = (.err 400 "You have already voted on this poll", db) := by
  simp [POST, hv, hfind, hexp, hnoauth, hdup]

/-- Concrete run of `duplicate_check_precedes_option_check` on `dbF4`. -/
theorem duplicate_check_precedes_option_check_witness :
    POST dbF4 reqF4 none 0 "ip" "ua"
      = (.err 400 "You have already voted on this poll", dbF4) :=
  duplicate_check_precedes_option_check dbF4 reqF4 none 0 "ip" "ua"
    ⟨"p1", true, false, false, none⟩
    (by decide) (by decide) (by decide) (by decide) (by decide) (by decide)

/-- Claim C7 counterexample: the store `dbF7b` holds poll `p1` with
`is_active = false`, yet the handler returns exactly the response it
returns when the poll is absent (`dbF7a`): the same 404 with the same
message, so an inactive poll is not distinguishable from a missing one. -/
theorem inactive_poll_indistinguishable_cex :
    dbF7b.polls = [⟨"p1", false, false, false, none⟩] ∧
    (POST dbF7b reqF7 none 0 "ip" "ua").1
      = .err 404 "Poll not found or inactive" ∧
    (POST dbF7a reqF7 none 0 "ip" "ua").1
      = (POST dbF7b reqF7 none 0 "ip" "ua").1 := by decide

/-- Claim C7 (amended): a submission to an existing poll whose `is_active`
is false is rejected with the same 404 response, message and all, that a
missing poll produces; the two cases are not distinguishable by the
caller. -/
theorem inactive_poll_same_as_missing (db : DB) (req : VoteRequest)
    (session : Option String) (now : Int) (ip ua : String) (p : PollRow)
    (hv : voteSchemaOk req = true)
    (hp : p ∈ db.polls) (hid : p.id = req.poll_id)
    (hinact : p.is_active = false)
    (hfind : db.polls.find? (fun q => q.id == req.poll_id && q.is_active)
      = none) :
    (POST db req session now ip ua).1
      = .err 404 "Poll not found or inactive" ∧
    (POST db req session now ip ua).1
      = (POST ⟨[], db.options, db.votes⟩ req session now ip ua).1 := by
  constructor
  · simp [POST, hv, hfind]
  · simp [POST, hv, hfind]

/-- Concrete run of `inactive_poll_same_as_missing` on `dbF7b`. -/
theorem inactive_poll_same_as_missing_witness :
    (POST dbF7b reqF7 none 0 "ip" "ua").1
      = .err 404 "Poll not found or inactive" ∧
    (POST dbF7b reqF7 none 0 "ip" "ua").1
      = (POST ⟨[], dbF7b.options, dbF7b.votes⟩ reqF7 none 0 "ip" "ua").1 :=
  inactive_poll_same_as_missing dbF7b reqF7 none 0 "ip" "ua"
    ⟨"p1", false, false, false, none⟩
    (by decide) (by decide) (by decide) (by decide) (by decide)

/-- Claim C8 counterexample: an accepted authenticated vote on `dbF8`
carries both `voter_id` (from the session) and the client-supplied
`voter_email`, so a persisted vote does not have exactly one identity
field. -/
theorem vote_identity_not_exclusive_cex :
    POST dbF8 reqF8 (some "u1") 0 "ip" "ua" = (.ok voteF8, dbF8b) ∧
    voteF8.voter_id.isSome = true ∧ voteF8.voter_email.isSome = true := by
  decide

/-- Claim C8 (amended): every vote accepted by the handler carries at
least one identity field (under authentication the session `voter_id` is
added on top of the client-supplied email or phone, so several identity
fields may be set at once). -/
theorem accepted_vote_has_some_identity (db : DB) (req : VoteRequest)
    (session : Option String) (now : Int) (ip ua : String) (v : VoteRow)
    (db2 : DB) (h : POST db req session now ip ua = (.ok v, db2)) :
    (v.voter_id.isSome || v.voter_email.isSome || v.voter_phone.isSome)
      = true := by
  rcases POST_cases db req session now ip ua with ⟨st, msg, he⟩ | ⟨p2, _, hval, _, _, _, hok⟩
  · rw [he] at h
    exact absurd (congrArg Prod.fst h) (by simp)
  · rw [hok] at h
    have h1 := congrArg Prod.fst h
    dsimp only at h1
    cases VoteOutcome.ok.inj h1
    simp only [voteSchemaOk] at hval
    rw [Bool.or_eq_true] at hval
    rcases hval with he | hp
    · simp [he]
    · simp [hp]

/-- Concrete run of `accepted_vote_has_some_identity` on the accepted vote
of `dbF8`. -/
theorem accepted_vote_has_some_identity_witness :
    (voteF8.voter_id.isSome || voteF8.voter_email.isSome
      || voteF8.voter_phone.isSome) = true :=
  accepted_vote_has_some_identity dbF8 reqF8 (some "u1") 0 "ip" "ua"
    voteF8 dbF8b (by decide)

/-- Claim C2 counterexample: the submission `reqF2` conflicts with the
stored vote of `dbF2` only on the phone column, so it passes the email
pre-check and fails at insert with a uniqueness violation; the handler
answers with the generic 500 storage response, not the already-voted
rejection. -/
theorem unique_violation_not_already_voted_cex :
    violatesUnique dbF2.votes rowF2 = true ∧
    POST dbF2 reqF2 none 0 "ip" "ua"
      = (.err 500 "Failed to submit vote", dbF2) ∧
    (.err 500 "Failed to submit vote" : VoteOutcome)
      ≠ .err 400 "You have already voted on this poll" := by decide

/-- Claim C2 (amended): a vote whose insert is rejected by the storage
uniqueness constraints is answered with the one generic 500 storage
response, so the caller cannot distinguish a duplicate-vote insert failure
from any other insert failure. -/
theorem unique_violation_reported_as_storage_error (db : DB)
    (req : VoteRequest) (session : Option String) (now : Int)
    (ip ua : String) (poll : PollRow) (vid : Option String)
    (hv : voteSchemaOk req = true)
    (hfind : db.polls.find? (fun p => p.id == req.poll_id && p.is_active)
      = some poll)
    (hexp : pollExpired poll now = false)
    (hses : (poll.require_authentication && session.isNone) = false)
    (hvid : vid = if poll.require_authentication then session else none)
    (hdup : existingVoteFound db.votes req.poll_id vid
      req.voter_email req.voter_phone = false)
    (hopt : db.options.any (fun o =>
      o.id == req.option_id && o.poll_id == req.poll_id) = true)
    (hviol : violatesUnique db.votes
      ⟨req.poll_id, req.option_id, vid, req.voter_email, req.voter_phone,
       ip, ua⟩ = true) :
    POST db req session now ip ua
      = (.err 500 "Failed to submit vote", db) := by
  subst hvid
  simp [POST, hv, hfind, hexp, hses, hdup, hopt, hviol]

/-- Concrete run of `unique_violation_reported_as_storage_error` on
`dbF2`. -/
theorem unique_violation_reported_as_storage_error_witness :
    POST dbF2 reqF2 none 0 "ip" "ua"
      = (.err 500 "Failed to submit vote", dbF2) :=
  unique_violation_reported_as_storage_error dbF2 reqF2 none 0 "ip" "ua"
    ⟨"p1", true, false, false, none⟩ none
    (by decide) (by decide) (by decide) (by decide) (by decide) (by decide)
    (by decide) (by decide)

/-- Claim C3 counterexample: in `dbF3` user `u1` holds a vote on option
`oA` of a multi-choice poll and has never voted on `oB`, yet the
multi-choice handler rejects the submission for `oB` with the
already-voted error instead of accepting it. -/
theorem multi_choice_prior_vote_rejected_cex :
    dbF3.votes.any (fun w => w.poll_id == "p1" && w.voter_id == some "u1"
      && w.option_id == "oB") = false ∧
    PUT dbF3 reqF3 (some "u1") 0 "ip" "ua"
      = (.err 400 "You have already voted on this poll", dbF3) := by decide

/-- Claim C3 (amended): on a poll with `allow_multiple_votes = true`, an
identity holding any prior vote on the poll is rejected with the
already-voted error regardless of which options the new submission
requests; votes across several options can only be placed in a single
batch. -/
theorem multi_choice_any_prior_vote_rejected (db : DB)
    (req : MultiVoteRequest) (uid : String) (now : Int) (ip ua : String)
    (poll : PollRow)
    (hv : multipleVoteSchemaOk req = true)
    (hfind : db.polls.find? (fun p =>
      p.id == req.poll_id && p.is_active && p.allow_multiple_votes)
      = some poll)
    (hexp : pollExpired poll now = false)
    (hprior : db.votes.any (fun w =>
      w.poll_id == req.poll_id && w.voter_id == some uid) = true) :
    PUT db req (some uid) now ip ua
      = (.err 400 "You have already voted on this poll", db) := by
  simp [PUT, hv, hfind, hexp, hprior]

/-- Concrete run of `multi_choice_any_prior_vote_rejected` on `dbF3`. -/
theorem multi_choice_any_prior_vote_rejected_witness :
    PUT dbF3 reqF3 (some "u1") 0 "ip" "ua"
      = (.err 400 "You have already voted on this poll", dbF3) :=
  multi_choice_any_prior_vote_rejected dbF3 reqF3 "u1" 0 "ip" "ua"
    ⟨"p1", true, true, false, none⟩
    (by decide) (by decide) (by decide) (by decide)

/-- A predicate selecting the rows of one identity counts at most one row
in a table satisfying the pairwise identity invariant, provided any two
rows it selects conflict. -/
theorem countP_le_one_of_pairwise (l : List VoteRow) (p : VoteRow → Bool)
    (hpw : atMostOnePerIdentity l)
    (hconf : ∀ a b, p a = true → p b = true →
      identityConflict a b = true) :
    l.countP p ≤ 1 := by
  induction l with
  | nil => simp
  | cons w rest ih =>
    rcases List.pairwise_cons.mp hpw with ⟨hhead, htail⟩
    rw [List.countP_cons]
    by_cases hw : p w = true
    · have h0 : rest.countP p = 0 := by
        rw [List.countP_eq_zero]
        intro u hu hpu
        have hc := hconf w u hw hpu
        rw [hhead u hu] at hc
        exact Bool.noConfusion hc
      simp [hw, h0]
    · have : (if p w then 1 else 0) = 0 := by simp [hw]
      rw [this]
      simpa using ih htail

/-- Two rows selected by a shared `(poll, voter_id)` key conflict. -/
theorem conflict_of_voter_id (pid s : String) (a b : VoteRow)
    (ha : (a.poll_id == pid && a.voter_id == some s) = true)
    (hb : (b.poll_id == pid && b.voter_id == some s) = true) :
    identityConflict a b = true := by
  rw [Bool.and_eq_true] at ha hb
  obtain ⟨ha1, ha2⟩ := ha
  obtain ⟨hb1, hb2⟩ := hb
  rw [beq_iff_eq] at ha1 ha2 hb1 hb2
  simp [identityConflict, ha1, hb1, ha2, hb2]

/-- Two rows selected by a shared `(poll, voter_email)` key conflict. -/
theorem conflict_of_voter_email (pid s : String) (a b : VoteRow)
    (ha : (a.poll_id == pid && a.voter_email == some s) = true)
    (hb : (b.poll_id == pid && b.voter_email == some s) = true) :
    identityConflict a b = true := by
  rw [Bool.and_eq_true] at ha hb
  obtain ⟨ha1, ha2⟩ := ha
  obtain ⟨hb1, hb2⟩ := hb
  rw [beq_iff_eq] at ha1 ha2 hb1 hb2
  simp [identityConflict, ha1, hb1, ha2, hb2]

/-- Two rows selected by a shared `(poll, voter_phone)` key conflict. -/
theorem conflict_of_voter_phone (pid s : String) (a b : VoteRow)
    (ha : (a.poll_id == pid && a.voter_phone == some s) = true)
    (hb : (b.poll_id == pid && b.voter_phone == some s) = true) :
    identityConflict a b = true := by
  rw [Bool.and_eq_true] at ha hb
  obtain ⟨ha1, ha2⟩ := ha
  obtain ⟨hb1, hb2⟩ := hb
  rw [beq_iff_eq] at ha1 ha2 hb1 hb2
  simp [identityConflict, ha1, hb1, ha2, hb2]

/-- Appending a row that passes the storage uniqueness constraints
preserves the pairwise identity invariant. -/
theorem append_no_conflict (l : List VoteRow) (v : VoteRow)
    (hnov : violatesUnique l v = false) (h : atMostOnePerIdentity l) :
    atMostOnePerIdentity (l ++ [v]) := by
  rw [atMostOnePerIdentity, List.pairwise_append]
  refine ⟨h, by simp, ?_⟩
  intro a ha b hb
  rw [List.mem_singleton] at hb
  rw [hb]
  by_contra hc
  rw [Bool.not_eq_false] at hc
  have hfa : ¬((a.poll_id == v.poll_id &&
      ((v.voter_id.isSome && a.voter_id == v.voter_id) ||
       (v.voter_email.isSome && a.voter_email == v.voter_email) ||
       (v.voter_phone.isSome && a.voter_phone == v.voter_phone))) = true) := by
    intro hcontra
    have hany : violatesUnique l v = true := by
      rw [violatesUnique, List.any_eq_true]
      exact ⟨a, ha, hcontra⟩
    rw [hany] at hnov
    exact Bool.noConfusion hnov
  apply hfa
  have hc2 : a.poll_id = v.poll_id ∧
      (((a.voter_id.isSome = true ∧ a.voter_id = v.voter_id) ∨
       (a.voter_email.isSome = true ∧ a.voter_email = v.voter_email)) ∨
       (a.voter_phone.isSome = true ∧ a.voter_phone = v.voter_phone)) := by
    simpa [identityConflict] using hc
  obtain ⟨hpid, hor⟩ := hc2
  rcases hor with (⟨hs, he⟩ | ⟨hs, he⟩) | ⟨hs, he⟩ <;>
    (rw [he] at hs; simp [hpid, hs, he])

/-- One run of the `POST` handler preserves the pairwise identity
invariant of the vote table: the only insertion it can make is guarded by
the storage uniqueness constraints. -/
theorem POST_preserves_atMostOne (db : DB) (req : VoteRequest)
    (session : Option String) (now : Int) (ip ua : String)
    (h : atMostOnePerIdentity db.votes) :
    atMostOnePerIdentity (POST db req session now ip ua).2.votes := by
  rcases POST_cases db req session now ip ua with
    ⟨st, msg, he⟩ | ⟨poll, _, _, _, _, hviol, hok⟩
  · rw [he]
    exact h
  · rw [hok]
    exact append_no_conflict db.votes _ hviol h

/-- Any sequence of `POST` runs preserves the pairwise identity
invariant. -/
theorem runPOSTs_preserve_atMostOne (calls : List PostCall) (db : DB)
    (h : atMostOnePerIdentity db.votes) :
    atMostOnePerIdentity (runPOSTs db calls).votes := by
  induction calls generalizing db with
  | nil => exact h
  | cons c cs ih =>
    exact ih ((POST db c.req c.session c.now c.ip c.ua).2)
      (POST_preserves_atMostOne db c.req c.session c.now c.ip c.ua h)

/-- Claim C1 (amended): starting from a vote table satisfying the
per-identity uniqueness invariant, any sequence of `submitVote` runs
preserves it — in particular at most one vote exists per `(poll,
voter_id)`, `(poll, voter_email)` and `(poll, voter_phone)` key — and a
submission whose checked identity field (`voter_id` when authentication
applies, otherwise `voter_email` when present, otherwise `voter_phone`)
already holds a vote on the poll is rejected with the already-voted error
and leaves the store unchanged.  (A submission that duplicates only a
lower-priority identity field is instead stopped by the storage
constraints with the generic 500 response, which is what the
counterexample exhibits.) -/
theorem submitVote_at_most_one_per_identity (db : DB)
    (calls : List PostCall) (req : VoteRequest) (session : Option String)
    (now : Int) (ip ua : String) (poll : PollRow) (vid : Option String)
    (pid s : String)
    (hInv : atMostOnePerIdentity db.votes)
    (hv : voteSchemaOk req = true)
    (hfind : db.polls.find? (fun p => p.id == req.poll_id && p.is_active)
      = some poll)
    (hmulti : poll.allow_multiple_votes = false)
    (hexp : pollExpired poll now = false)
    (hses : (poll.require_authentication && session.isNone) = false)
    (hvid : vid = if poll.require_authentication then session else none)
    (hdup : existingVoteFound db.votes req.poll_id vid
      req.voter_email req.voter_phone = true) :
    atMostOnePerIdentity (runPOSTs db calls).votes ∧
    ((runPOSTs db calls).votes.countP
      (fun w => w.poll_id == pid && w.voter_id == some s) ≤ 1 ∧
     (runPOSTs db calls).votes.countP
      (fun w => w.poll_id == pid && w.voter_email == some s) ≤ 1 ∧
     (runPOSTs db calls).votes.countP
      (fun w => w.poll_id == pid && w.voter_phone == some s) ≤ 1) ∧
    POST db req session now ip ua
      = (.err 400 "You have already voted on this poll", db) := by
  have hrun := runPOSTs_preserve_atMostOne calls db hInv
  refine ⟨hrun, ⟨?_, ?_, ?_⟩, ?_⟩
  · exact countP_le_one_of_pairwise _ _ hrun (conflict_of_voter_id pid s)
  · exact countP_le_one_of_pairwise _ _ hrun (conflict_of_voter_email pid s)
  · exact countP_le_one_of_pairwise _ _ hrun (conflict_of_voter_phone pid s)
  · subst hvid
    simp [POST, hv, hfind, hexp, hses, hdup]

/-- Concrete run of `submitVote_at_most_one_per_identity` on `dbF1` with
the follow-up sequence `callsF1`. -/
theorem submitVote_at_most_one_per_identity_witness :
    atMostOnePerIdentity (runPOSTs dbF1 callsF1).votes ∧
    ((runPOSTs dbF1 callsF1).votes.countP
      (fun w => w.poll_id == "p1" && w.voter_id == some "e1") ≤ 1 ∧
     (runPOSTs dbF1 callsF1).votes.countP
      (fun w => w.poll_id == "p1" && w.voter_email == some "e1") ≤ 1 ∧
     (runPOSTs dbF1 callsF1).votes.countP
      (fun w => w.poll_id == "p1" && w.voter_phone == some "e1") ≤ 1) ∧
    POST dbF1 reqF1 none 0 "ip" "ua"
      = (.err 400 "You have already voted on this poll", dbF1) :=
  submitVote_at_most_one_per_identity dbF1 callsF1 reqF1 none 0 "ip" "ua"
    ⟨"p1", true, false, false, none⟩ none "p1" "e1"
    (by simp [atMostOnePerIdentity, dbF1])
    (by decide) (by decide) (by decide) (by decide) (by decide) (by decide)
    (by decide)

/-- Claim C1 counterexample: in `dbF1` (a poll with `allow_multiple_votes
= false`) the phone identity `ph` already holds a vote, yet the submission
`reqF1cex`, which carries that same phone, is rejected with the generic
500 storage response rather than the already-voted rejection, because the
duplicate pre-check only consults the email field when one is present. -/
theorem at_most_one_identity_not_always_already_voted_cex :
    dbF1.polls = [⟨"p1", true, false, false, none⟩] ∧
    dbF1.votes.countP
      (fun w => w.poll_id == "p1" && w.voter_phone == some "ph") = 1 ∧
    reqF1cex.voter_phone = some "ph" ∧
    (POST dbF1 reqF1cex none 0 "ip" "ua").1
      = .err 500 "Failed to submit vote" ∧
    (POST dbF1 reqF1cex none 0 "ip" "ua").1
      ≠ .err 400 "You have already voted on this poll" := by decide

/-- Reading the tally dictionary at the head entry takes its value; any
other key falls through. -/
theorem lookupCount_cons (k1 : String) (n : Nat)
    (l : List (String × Nat)) (k : String) :
    lookupCount ((k1, n) :: l) k = if k1 = k then n else lookupCount l k := by
  by_cases h : k1 = k
  · simp [lookupCount, List.find?, h]
  · simp [lookupCount, List.find?, h, beq_eq_false_iff_ne.mpr h]

/-- Reading the tally dictionary after one bump: the bumped key gains one,
every other key is unchanged. -/
theorem lookupCount_bumpCount (acc : List (String × Nat)) (k0 k : String) :
    lookupCount (bumpCount acc k0) k =
      lookupCount acc k + (if k0 = k then 1 else 0) := by
  induction acc with
  | nil =>
    by_cases h : k0 = k
    · simp [bumpCount, lookupCount_cons, lookupCount, List.find?, h]
    · simp [bumpCount, lookupCount_cons, lookupCount, List.find?, h,
        beq_eq_false_iff_ne.mpr h]
  | cons e rest ih =>
    obtain ⟨k1, n⟩ := e
    by_cases h1 : k1 = k0
    · have hb : bumpCount ((k1, n) :: rest) k0 = (k1, n + 1) :: rest := by
        simp [bumpCount, h1]
      rw [hb, lookupCount_cons, lookupCount_cons]
      by_cases h2 : k1 = k
      · have hk0 : k0 = k := h1.symm.trans h2
        simp [h2, hk0]
      · have hk0 : ¬k0 = k := fun hx => h2 (h1.trans hx)
        simp [h2, hk0]
    · have hb : bumpCount ((k1, n) :: rest) k0 = (k1, n) :: bumpCount rest k0 := by
        simp [bumpCount, h1]
      rw [hb, lookupCount_cons, lookupCount_cons]
      by_cases h2 : k1 = k
      · have hk0 : ¬k0 = k := fun hx => h1 (h2.trans hx.symm)
        simp [h2, hk0]
      · simp [h2, ih]

/-- The tally fold of `analyzeOptions` counts occurrences: reading key `k`
from the dictionary built over `votes` yields the number of votes whose
`optionId` is `k`. -/
theorem lookupCount_foldl (votes : List AVote)
    (acc : List (String × Nat)) (k : String) :
    lookupCount (votes.foldl (fun a v => bumpCount a v.optionId) acc) k =
      lookupCount acc k + votes.countP (fun v => v.optionId == k) := by
  induction votes generalizing acc with
  | nil => simp
  | cons v vs ih =>
    rw [List.foldl_cons, ih, lookupCount_bumpCount, List.countP_cons]
    by_cases h : v.optionId = k <;> simp [h] <;> omega

/-- `optionVotes[k] || 0` equals the count of votes for option `k`. -/
theorem optionVotesMap_count (votes : List AVote) (k : String) :
    lookupCount (optionVotesMap votes) k =
      votes.countP (fun v => v.optionId == k) := by
  have h := lookupCount_foldl votes [] k
  simpa [optionVotesMap, lookupCount] using h

/-- Sums of pointwise sums of two Nat-valued maps split. -/
theorem sum_map_add_nat {α : Type} (f g : α → Nat) (l : List α) :
    (l.map (fun x => f x + g x)).sum = (l.map f).sum + (l.map g).sum := by
  induction l with
  | nil => rfl
  | cons a l ih => simp [ih]; omega

/-- Summing the indicator of one key over the option list counts that key
among the option ids. -/
theorem sum_indicator_count (opts : List AOption) (k : String) :
    (opts.map (fun o => if k = o.id then 1 else 0)).sum
      = (opts.map AOption.id).count k := by
  induction opts with
  | nil => simp
  | cons o rest ih =>
    by_cases h : k = o.id
    · subst h
      simp [List.count_cons, ih, Nat.add_comm]
    · simp [List.count_cons, ih, h, Ne.symm h]

/-- When every vote names one of the poll option ids and those ids are
distinct, the per-option counts sum to the number of votes. -/
theorem sum_counts (opts : List AOption) (votes : List AVote)
    (hcov : ∀ v ∈ votes, v.optionId ∈ opts.map AOption.id)
    (hnd : (opts.map AOption.id).Nodup) :
    (opts.map (fun o => votes.countP (fun v => v.optionId == o.id))).sum
      = votes.length := by
  induction votes with
  | nil => simp
  | cons v vs ih =>
    have hcov2 : ∀ u ∈ vs, u.optionId ∈ opts.map AOption.id :=
      fun u hu => hcov u (List.mem_cons_of_mem v hu)
    have step : ∀ o ∈ opts, (v :: vs).countP (fun u => u.optionId == o.id)
        = vs.countP (fun u => u.optionId == o.id)
          + (if v.optionId = o.id then 1 else 0) := by
      intro o _
      rw [List.countP_cons]
      by_cases h : v.optionId = o.id <;> simp [h]
    rw [List.map_congr_left step, sum_map_add_nat, ih hcov2,
      sum_indicator_count,
      List.count_eq_one_of_mem hnd (hcov v (List.mem_cons_self v vs))]
    simp [Nat.add_comm]

/-- Sums of a map scaled on the right by a constant factor out. -/
theorem sum_map_mul_right {α : Type} (f : α → ℚ) (c : ℚ) (l : List α) :
    (l.map (fun x => f x * c)).sum = (l.map f).sum * c := by
  induction l with
  | nil => simp
  | cons a l ih => simp [ih, add_mul]

/-- Claim C9: when every vote references one of the poll options and the
option ids are distinct, the breakdown of `analyzeOptions` satisfies: the
per-option counts sum to the number of votes; every percentage equals
`count / totalVotes * 100`, and is 0 when there are no votes; and the
percentages sum to exactly 100 whenever there is at least one vote. -/
theorem option_breakdown_percentages (poll : APoll) (votes : List AVote)
    (hcov : ∀ v ∈ votes, v.optionId ∈ poll.options.map AOption.id)
    (hnd : (poll.options.map AOption.id).Nodup) :
    ((analyzeOptions poll votes).map (fun oa => oa.voteCount)).sum
      = votes.length ∧
    (analyzeOptions poll votes).map (fun oa => oa.percentage)
      = (analyzeOptions poll votes).map (fun oa =>
          if 0 < votes.length
          then ((oa.voteCount : ℚ) / (votes.length : ℚ)) * 100 else 0) ∧
    (0 < votes.length →
      ((analyzeOptions poll votes).map (fun oa => oa.percentage)).sum
        = 100) := by
  have hcnt : (analyzeOptions poll votes).map (fun oa => oa.voteCount)
      = poll.options.map (fun o =>
          votes.countP (fun v => v.optionId == o.id)) := by
    simp only [analyzeOptions, List.map_map]
    apply List.map_congr_left
    intro o _
    exact optionVotesMap_count votes o.id
  refine ⟨?_, ?_, ?_⟩
  · rw [hcnt]
    exact sum_counts poll.options votes hcov hnd
  · simp only [analyzeOptions, List.map_map]
    apply List.map_congr_left
    intro o _
    rfl
  · intro hpos
    have hne : (votes.length : ℚ) ≠ 0 := by
      exact_mod_cast Nat.pos_iff_ne_zero.mp hpos
    have hpct : (analyzeOptions poll votes).map (fun oa => oa.percentage)
        = poll.options.map (fun o =>
            ((votes.countP (fun v => v.optionId == o.id) : ℚ))
              * (100 / (votes.length : ℚ))) := by
      simp only [analyzeOptions, List.map_map]
      apply List.map_congr_left
      intro o _
      show (if votes.length > 0
        then ((lookupCount (optionVotesMap votes) o.id : ℚ)
          / (votes.length : ℚ)) * 100 else 0) = _
      rw [if_pos hpos, optionVotesMap_count, div_mul_eq_mul_div,
        mul_div_assoc]
    rw [hpct, sum_map_mul_right]
    have hsum : (poll.options.map (fun o =>
        ((votes.countP (fun v => v.optionId == o.id) : ℚ)))).sum
        = (votes.length : ℚ) := by
      rw [← sum_counts poll.options votes hcov hnd, Nat.cast_list_sum,
        List.map_map]
      rfl
    rw [hsum, mul_comm, div_mul_cancel₀ _ hne]

/-- Concrete run of `option_breakdown_percentages` on the three votes of
`votesF9`: counts sum to 3 and percentages sum to 100. -/
theorem option_breakdown_percentages_witness :
    ((analyzeOptions pollF9 votesF9).map (fun oa => oa.voteCount)).sum
      = votesF9.length ∧
    (analyzeOptions pollF9 votesF9).map (fun oa => oa.percentage)
      = (analyzeOptions pollF9 votesF9).map (fun oa =>
          if 0 < votesF9.length
          then ((oa.voteCount : ℚ) / (votesF9.length : ℚ)) * 100 else 0) ∧
    ((analyzeOptions pollF9 votesF9).map (fun oa => oa.percentage)).sum
      = 100 := by
  have h := option_breakdown_percentages pollF9 votesF9
    (by decide) (by decide)
  exact ⟨h.1, h.2.1, h.2.2 (by decide)⟩

/-- Sorting does not change the number of votes. -/
theorem length_sortVotes (l : List AVote) :
    (sortVotes l).length = l.length := by
  simp [sortVotes, List.length_mergeSort]

/-- The sorted vote list is a permutation of the input. -/
theorem sortVotes_perm (l : List AVote) : (sortVotes l).Perm l :=
  List.mergeSort_perm l _

/-- The creation times of the sorted vote list are ascending. -/
theorem sorted_map_createdAt (l : List AVote) :
    ((sortVotes l).map (fun v => v.createdAt)).Pairwise (· ≤ ·) := by
  have h := @List.sorted_mergeSort AVote
    (fun a b => decide (a.createdAt ≤ b.createdAt))
    (fun a b c hab hbc => by
      simp only [decide_eq_true_eq] at hab hbc ⊢
      exact le_trans hab hbc)
    (fun a b => by simpa using le_total a.createdAt b.createdAt) l
  rw [List.pairwise_map]
  exact h.imp (fun hab => by simpa using hab)

/-- Permutations of a vote list sort to lists with identical creation-time
sequences. -/
theorem map_createdAt_sortVotes_eq (v1 v2 : List AVote)
    (h : v1.Perm v2) :
    (sortVotes v1).map (fun v => v.createdAt)
      = (sortVotes v2).map (fun v => v.createdAt) := by
  exact List.eq_of_perm_of_sorted
    (((sortVotes_perm v1).trans (h.trans (sortVotes_perm v2).symm)).map _)
    (sorted_map_createdAt v1) (sorted_map_createdAt v2)

/-- The per-option momentum label of `calculateOptionTrend` depends only
on how many votes the option received, so it is permutation invariant. -/
theorem calculateOptionTrend_perm (k : String) (v1 v2 : List AVote)
    (h : v1.Perm v2) :
    calculateOptionTrend k v1 = calculateOptionTrend k v2 := by
  have hlen : (v1.filter (fun v => v.optionId == k)).length
      = (v2.filter (fun v => v.optionId == k)).length :=
    (h.filter _).length_eq
  unfold calculateOptionTrend
  simp only [List.length_take, List.length_drop, length_sortVotes, hlen]

/-- `analyzeOptions` is permutation invariant: counts, percentages and
trend labels only depend on the vote multiset. -/
theorem analyzeOptions_perm (poll : APoll) (v1 v2 : List AVote)
    (h : v1.Perm v2) :
    analyzeOptions poll v1 = analyzeOptions poll v2 := by
  unfold analyzeOptions
  apply List.map_congr_left
  intro o _
  rw [optionVotesMap_count, optionVotesMap_count, h.countP_eq,
    h.length_eq, calculateOptionTrend_perm o.id v1 v2 h]

/-- Filing a vote under a key changes the bucket shape of the dictionary
in a way that depends only on the key: the entry for that key grows by
one (or is appended with size one). -/
theorem bucketSizes_pushEntry (acc1 acc2 : List (String × List AVote))
    (k : String) (u v : AVote)
    (h : bucketSizes acc1 = bucketSizes acc2) :
    bucketSizes (pushEntry acc1 k u) = bucketSizes (pushEntry acc2 k v) := by
  induction acc1 generalizing acc2 with
  | nil =>
    cases acc2 with
    | nil => simp [pushEntry, bucketSizes]
    | cons e2 rest2 => simp [bucketSizes] at h
  | cons e1 rest1 ih =>
    cases acc2 with
    | nil => simp [bucketSizes] at h
    | cons e2 rest2 =>
      obtain ⟨k1, vs1⟩ := e1
      obtain ⟨k2, vs2⟩ := e2
      simp only [bucketSizes, List.map_cons, List.cons.injEq,
        Prod.mk.injEq] at h
      obtain ⟨⟨hk, hlen⟩, hrest⟩ := h
      subst hk
      by_cases hkk : k1 = k
      · subst hkk
        simp [pushEntry, bucketSizes, hlen, hrest]
      · have hkb : (k1 == k) = false := beq_eq_false_iff_ne.mpr hkk
        simp only [pushEntry, hkb, Bool.false_eq_true, if_false,
          bucketSizes, List.map_cons]
        rw [hlen, show (pushEntry rest1 k u).map (fun e => (e.1, e.2.length))
          = (pushEntry rest2 k v).map (fun e => (e.1, e.2.length))
          from ih rest2 hrest]

/-- Two vote lists with the same key sequence produce dictionaries with
the same bucket shape, whatever accumulators the fold starts from, as
long as those agree in shape. -/
theorem bucketSizes_foldl (tf : TimeFrame) :
    ∀ (l1 l2 : List AVote) (acc1 acc2 : List (String × List AVote)),
    l1.map (fun v => voteKey tf v.createdAt)
      = l2.map (fun v => voteKey tf v.createdAt) →
    bucketSizes acc1 = bucketSizes acc2 →
    bucketSizes (l1.foldl
      (fun acc v => pushEntry acc (voteKey tf v.createdAt) v) acc1)
      = bucketSizes (l2.foldl
        (fun acc v => pushEntry acc (voteKey tf v.createdAt) v) acc2)
  | [], [], acc1, acc2, _, hacc => by simpa using hacc
  | [], b :: l2, acc1, acc2, hk, _ => by simp at hk
  | a :: l1, [], acc1, acc2, hk, _ => by simp at hk
  | a :: l1, b :: l2, acc1, acc2, hk, hacc => by
    simp only [List.map_cons, List.cons.injEq] at hk
    obtain ⟨hkey, hrest⟩ := hk
    simp only [List.foldl_cons]
    apply bucketSizes_foldl tf l1 l2 _ _ hrest
    rw [hkey]
    exact bucketSizes_pushEntry acc1 acc2 (voteKey tf b.createdAt) a b hacc

/-- The trend series only depends on the bucket shape of the grouped
dictionary. -/
theorem trendsFromGroups_of_bucketSizes
    (g1 g2 : List (String × List AVote))
    (h : bucketSizes g1 = bucketSizes g2) :
    ∀ cum, trendsFromGroups g1 cum = trendsFromGroups g2 cum := by
  induction g1 generalizing g2 with
  | nil =>
    cases g2 with
    | nil => intro cum; rfl
    | cons e2 rest2 => simp [bucketSizes] at h
  | cons e1 rest1 ih =>
    cases g2 with
    | nil => simp [bucketSizes] at h
    | cons e2 rest2 =>
      obtain ⟨k1, vs1⟩ := e1
      obtain ⟨k2, vs2⟩ := e2
      simp only [bucketSizes, List.map_cons, List.cons.injEq,
        Prod.mk.injEq] at h
      obtain ⟨⟨hk, hlen⟩, hrest⟩ := h
      intro cum
      simp only [trendsFromGroups, hk, hlen]
      rw [ih rest2 hrest]

/-- `getVotingTrends` is permutation invariant: the bucket keys, bucket
counts and cumulative totals only depend on the vote multiset. -/
theorem getVotingTrends_perm (v1 v2 : List AVote) (tf : TimeFrame)
    (h : v1.Perm v2) :
    getVotingTrends v1 tf = getVotingTrends v2 tf := by
  unfold getVotingTrends groupVotesByTimeFrame
  apply trendsFromGroups_of_bucketSizes
  apply bucketSizes_foldl tf _ _ _ _ _ rfl
  have hmap := map_createdAt_sortVotes_eq v1 v2 h
  calc (sortVotes v1).map (fun v => voteKey tf v.createdAt)
      = ((sortVotes v1).map (fun v => v.createdAt)).map (voteKey tf) := by
        rw [List.map_map]; rfl
    _ = ((sortVotes v2).map (fun v => v.createdAt)).map (voteKey tf) := by
        rw [hmap]
    _ = (sortVotes v2).map (fun v => voteKey tf v.createdAt) := by
        rw [List.map_map]; rfl

/-- Claim C10: analytics derivation is deterministic (recomputation on the
same votes gives identical results) and order independent (any permutation
of the votes gives identical per-option breakdowns and identical trend
series with the same cumulative totals). -/
theorem analytics_idempotent_order_independent (poll : APoll)
    (v1 v2 : List AVote) (tf : TimeFrame) (hperm : v1.Perm v2) :
    analyzeOptions poll v1 = analyzeOptions poll v1 ∧
    getVotingTrends v1 tf = getVotingTrends v1 tf ∧
    analyzeOptions poll v1 = analyzeOptions poll v2 ∧
    getVotingTrends v1 tf = getVotingTrends v2 tf :=
  ⟨rfl, rfl, analyzeOptions_perm poll v1 v2 hperm,
    getVotingTrends_perm v1 v2 tf hperm⟩

/-- Concrete run of `analytics_idempotent_order_independent` on `votesF9`
and its permutation `votesF9perm`. -/
theorem analytics_idempotent_order_independent_witness :
    analyzeOptions pollF9 votesF9 = analyzeOptions pollF9 votesF9 ∧
    getVotingTrends votesF9 .day = getVotingTrends votesF9 .day ∧
    analyzeOptions pollF9 votesF9 = analyzeOptions pollF9 votesF9perm ∧
    getVotingTrends votesF9 .day = getVotingTrends votesF9perm .day :=
  analytics_idempotent_order_independent pollF9 votesF9 votesF9perm .day
    (by decide)

end AlxPoll
